import Mathlib

/-!
# Verification of the presto_mcp turn-orchestration core

A shallow embedding of the repository's core components and proofs of the
frozen specification claims about them:

* `src/configs/status.py` — the conversation-status resolver
  (`determine_status` and the `ConversationStatus` label set);
* `src/mcp/server.py`, `src/mcp/status_mcp.py`, `src/mcp/vaulta.py` — the
  tool registry, its dispatch, and the HTTP error envelope of
  `VaultaClient._request`;
* `src/utils/session_store.py` — the durable session store;
* `src/services/ai.py` — `AIService`: session lifecycle
  (`get_or_create_session`, `_persist_session`), the inference/tool loop of
  `AIService.chat` with its iteration ceiling, the OTP-prompt guard, and
  `clear_session`;
* `src/routes/chat_routes.py` — the `/chat` turn route (token resolution,
  user-context resolution, token-change scan, status computation, response
  assembly) and the session-deletion route.

Python dicts appearing as loosely-schemed JSON payloads (tool arguments,
tool results, error envelopes) are embedded as the inductive `JsonV`;
Python truthiness is `JsonV.truthy` / emptiness of strings.  Stateful code
is embedded by explicit state passing: the in-memory session map and the
durable store are association lists threaded through each operation.  The
language model and the network are external collaborators; they enter as
explicit parameters (a stream of model responses, a tool executor, an HTTP
outcome), exactly at the boundary where the Python code receives their
data.
-/

/-- A JSON-ish value, embedding the loosely-schemed Python dicts used for
tool arguments, tool results and error envelopes. -/
inductive JsonV where
  | null
  | bool (b : Bool)
  | str (s : String)
  | num (n : Int)
  | arr (elems : List JsonV)
  | obj (fields : List (String × JsonV))


/-- Python `d.get(k)` on a dict: `none` when the key is missing or the
value is not a dict (the source only ever calls `.get` on dicts). -/
def JsonV.get (j : JsonV) (k : String) : Option JsonV :=
  match j with
  | .obj fields => (fields.find? (fun p => p.1 == k)).map (fun p => p.2)
  | _ => none

/-- Python truthiness of a JSON value: `None`, `False`, `""`, `0`, `[]`
and an empty dict are falsy, everything else truthy. -/
def JsonV.truthy : JsonV → Bool
  | .null => false
  | .bool b => b
  | .str s => s != ""
  | .num n => n != 0
  | .arr elems => !elems.isEmpty
  | .obj fields => !fields.isEmpty

/-- Truthiness of an optional JSON value (a `.get` result): a missing key
is `None`, hence falsy. -/
def jsonOptTruthy (o : Option JsonV) : Bool :=
  match o with
  | none => false
  | some v => v.truthy

/-- The string content of a `.get` result when it is a truthy string, else
`none`.  The source stores status values and tokens as strings; a
non-string value in those positions would make the Python code raise, a
path outside every claim. -/
def jsonTruthyStr (o : Option JsonV) : Option String :=
  match o with
  | some (.str s) => if s = "" then none else some s
  | _ => none

/-- Association-list update, embedding `d[k] = v` on a Python dict
(replace in place when the key exists, append otherwise, preserving
insertion order exactly as CPython does). -/
def alSet {α : Type} (m : List (String × α)) (k : String) (v : α) : List (String × α) :=
  match m with
  | [] => [(k, v)]
  | (k', v') :: rest => if k' = k then (k, v) :: rest else (k', v') :: alSet rest k v

/-- Association-list lookup, embedding `d.get(k)`. -/
def alGet {α : Type} (m : List (String × α)) (k : String) : Option α :=
  (m.find? (fun p => p.1 == k)).map (fun p => p.2)

/-- Association-list deletion, embedding `del d[k]`. -/
def alDel {α : Type} (m : List (String × α)) (k : String) : List (String × α) :=
  match m with
  | [] => []
  | (k', v') :: rest => if k' = k then rest else (k', v') :: alDel rest k

/-- Python truthiness of an optional string (`None` and `""` are falsy). -/
def strOptTruthy (o : Option String) : Bool :=
  match o with
  | none => false
  | some s => s != ""

/-- The value of an optional string when truthy, else `none`; embeds
Python's `x or y` chains on token strings. -/
def strOptVal (o : Option String) : Option String :=
  match o with
  | none => none
  | some s => if s = "" then none else some s

/-- `needle.isPrefixOf hay || ...` recursion: substring containment on
character lists, embedding Python's `needle in hay`. -/
def containsSubL (hay needle : List Char) : Bool :=
  match hay with
  | [] => needle.isEmpty
  | _ :: t => needle.isPrefixOf hay || containsSubL t needle

/-- Python `needle in hay` on strings. -/
def containsSub (hay needle : String) : Bool :=
  containsSubL hay.data needle.data

/-- Python `s.lower()` (the source only compares basic-latin phrases). -/
def lowerStr (s : String) : String :=
  String.mk (s.data.map Char.toLower)

/-- Python `s.strip()` on character lists (ASCII whitespace; the strings
the source strips are ASCII). -/
def stripL (cs : List Char) : List Char :=
  ((cs.dropWhile Char.isWhitespace).reverse.dropWhile Char.isWhitespace).reverse

/-- Python `s.strip()`. -/
def stripStr (s : String) : String :=
  String.mk (stripL s.data)

/-- Python `re.fullmatch(r"\d{6}", s)`: exactly six decimal digits. -/
def sixDigitsL (cs : List Char) : Bool :=
  cs.length == 6 && cs.all Char.isDigit

/-! ## `src/configs/status.py` — the status label set and resolver -/

/-- The status-label attributes declared in the body of the
`ConversationStatus` class of `src/configs/status.py`, as (attribute
name, string value) pairs; for every declared label the value equals the
name. -/
def knownStatusPairs : List (String × String) :=
  [("NOT_AUTHENTICATED", "NOT_AUTHENTICATED"),
   ("AWAITING_OTP", "AWAITING_OTP"),
   ("AUTHENTICATED", "AUTHENTICATED"),
   ("PAYMENT_SELECTING_ACCOUNT", "PAYMENT_SELECTING_ACCOUNT"),
   ("PAYMENT_ENTERING_AMOUNT", "PAYMENT_ENTERING_AMOUNT"),
   ("PAYMENT_ENTERING_CURRENCY", "PAYMENT_ENTERING_CURRENCY"),
   ("PAYMENT_ENTERING_DESTINATION", "PAYMENT_ENTERING_DESTINATION"),
   ("PROCESSING_PAYMENT", "PROCESSING_PAYMENT"),
   ("PAYMENT_COMPLETE", "PAYMENT_COMPLETE"),
   ("CREATING_VAULTA_ACCOUNT", "CREATING_VAULTA_ACCOUNT"),
   ("ACCOUNT_CREATED", "ACCOUNT_CREATED"),
   ("GETTING_QUOTE", "GETTING_QUOTE"),
   ("QUOTE_RECEIVED", "QUOTE_RECEIVED"),
   ("VAULTA_ACTIVE", "VAULTA_ACTIVE"),
   ("VIEWING_ACCOUNTS", "VIEWING_ACCOUNTS"),
   ("VIEWING_TRANSACTIONS", "VIEWING_TRANSACTIONS"),
   ("IDLE", "IDLE"),
   ("PROCESSING", "PROCESSING"),
   ("ERROR", "ERROR")]

/-- The string-valued attributes `hasattr`/`getattr` resolve on the
`ConversationStatus` class: the 19 declared labels, plus the inherited
class attributes whose value is a string — `hasattr` is not restricted to
the declared labels, so a signal naming one of these comes back as the
attribute's value, not as the raw signal string.  The class also carries
inherited attributes with non-string values (`mro`, `__init__`,
`__dict__`, ...); a signal naming one of those makes the Python resolver
return a non-string object, which the HTTP layer then fails to serialize
(the route's outer `except` answers 500) — a path outside every claim and
outside this string-typed embedding. -/
def conversationStatusAttrs : List (String × String) :=
  knownStatusPairs ++
  [("__name__", "ConversationStatus"),
   ("__qualname__", "ConversationStatus"),
   ("__module__", "configs.status"),
   ("__doc__", "Status codes to indicate where user is in the conversation flow")]

/-- `if explicit and hasattr(ConversationStatus, explicit): return
getattr(ConversationStatus, explicit)` followed by `return explicit`: map
an explicit status string through the class attribute lookup when it
names any (string-valued) class attribute — declared label or inherited
attribute — and pass it through unchanged only when it names none. -/
def statusLabelOf (v : String) : String :=
  match conversationStatusAttrs.find? (fun p => p.1 == v) with
  | some p => p.2
  | none => v

/-- One tool dispatch recorded in an interaction
(`ToolInvocation` of the spec; the dicts appended to `tool_results` in
`AIService.chat`). -/
structure ToolCall where
  function : String
  arguments : List (String × JsonV)
  result : JsonV


/-- One user turn recorded in the session history (the dicts appended to
`session['history']` in `AIService.chat`): keys `user`, `assistant`,
`tool_calls`. -/
structure Interaction where
  user : String
  assistant : String
  tool_calls : List ToolCall


/-- `(tc.get('arguments', {}) or {}).get('status') or (tc.get('result',
{}) or {}).get('status')`: the explicit status value of an `update_status`
invocation, arguments first, result second, Python-truthy values only. -/
def explicitValueOf (tc : ToolCall) : Option String :=
  match jsonTruthyStr (alGet tc.arguments "status") with
  | some s => some s
  | none => jsonTruthyStr (JsonV.get tc.result "status")

/-- The explicit-signal scan of `determine_status` (lines 54–65 of
`src/configs/status.py`): history newest-to-oldest, tool calls within each
interaction newest-to-oldest; in an interaction, the newest `update_status`
invocation is inspected and, when it carries no truthy value, the `break`
moves the scan to the next older interaction. -/
def firstExplicitSignal (history : List Interaction) : Option String :=
  history.reverse.findSome? fun inter =>
    match inter.tool_calls.reverse.find? (fun tc => tc.function == "update_status") with
    | some tc => explicitValueOf tc
    | none => none

/-- The serializable part of the user context built by the chat route
(keys `email`, `name`, `phone`, `accounts`, `vaulta_user_id`); absent keys
are embedded as empty values, and only the truthiness of `email` is ever
read.  An empty Python dict corresponds to `emptyUserContext`. -/
structure UserContext where
  email : String
  name : String
  phone : String
  accounts : List JsonV
  vaulta_user_id : String


/-- The empty user context (`{}` in the source). -/
def emptyUserContext : UserContext :=
  { email := "", name := "", phone := "", accounts := [], vaulta_user_id := "" }

/-- `bool(user_context and user_context.get('email'))`: the user context
is present and its email is truthy. -/
def ucEmailTruthy (uc : Option UserContext) : Bool :=
  match uc with
  | none => false
  | some c => c.email != ""

/-- One in-memory session of `AIService.sessions`.  The live
model/inference-channel pair (`model`, `chat`) is embedded by the system
instruction it was seeded with; `history`, `user_context`, `authenticated`
and `vaulta_token` are the serializable keys of the session dict. -/
structure MemSession where
  chatInstruction : String
  history : List Interaction
  user_context : UserContext
  authenticated : Bool
  vaulta_token : Option String


/-- The heuristic content/tool scan of `determine_status` (lines 78–135 of
`src/configs/status.py`), reached only for an authenticated context with a
nonempty history; `inter` is the last interaction. -/
def heuristicScan (inter : Interaction) : String :=
  let m := lowerStr inter.assistant
  if containsSub m "which account would you like to pay from" ||
     containsSub m "which account do you want to use" then
    "PAYMENT_SELECTING_ACCOUNT"
  else if containsSub m "how much would you like to send" ||
          containsSub m "what amount" then
    "PAYMENT_ENTERING_AMOUNT"
  else if containsSub m "what currency" && containsSub m "payment" then
    "PAYMENT_ENTERING_CURRENCY"
  else if (containsSub m "destination" || containsSub m "where should i send" ||
           containsSub m "what type of payment" || containsSub m "which network") &&
          (containsSub m "payment" || containsSub m "send" || containsSub m "transfer") then
    "PAYMENT_ENTERING_DESTINATION"
  else
    match inter.tool_calls.getLast? with
    | none => "AUTHENTICATED"
    | some tc =>
      let last_tool := tc.function
      if last_tool == "vaulta_create_payment" then
        if !jsonOptTruthy (JsonV.get tc.result "error") then "PAYMENT_COMPLETE" else "ERROR"
      else if last_tool == "vaulta_create_account" then
        if !jsonOptTruthy (JsonV.get tc.result "error") then "ACCOUNT_CREATED"
        else "CREATING_VAULTA_ACCOUNT"
      else if last_tool == "vaulta_get_all_accounts" then "VIEWING_ACCOUNTS"
      else if last_tool == "vaulta_get_all_transactions" then "VIEWING_TRANSACTIONS"
      else if last_tool == "vaulta_get_quote" then "QUOTE_RECEIVED"
      else if last_tool == "vaulta_get_pairs" then "GETTING_QUOTE"
      else if last_tool.startsWith "vaulta_" then "VAULTA_ACTIVE"
      else "AUTHENTICATED"

/-- The part of `determine_status` below the explicit-signal scan (lines
67–138 of `src/configs/status.py`): the unauthenticated/OTP check, then
the heuristic scans, then the authenticated default. -/
def statusHeuristicPart (s : MemSession) (user_context : Option UserContext) : String :=
  if !ucEmailTruthy user_context then
    match s.history.getLast? with
    | none => "NOT_AUTHENTICATED"
    | some last =>
      match last.tool_calls.getLast? with
      | some tc => if tc.function == "vaulta_login" then "AWAITING_OTP" else "NOT_AUTHENTICATED"
      | none => "NOT_AUTHENTICATED"
  else
    match s.history.getLast? with
    | none => "AUTHENTICATED"
    | some last => heuristicScan last

/-- `determine_status(session, user_context)` of `src/configs/status.py`:
no session, explicit-signal scan, unauthenticated/OTP check, heuristic
content and tool scans, authenticated default — in that order. -/
def determine_status (session : Option MemSession) (user_context : Option UserContext) : String :=
  match session with
  | none => "NOT_AUTHENTICATED"
  | some s =>
    match firstExplicitSignal s.history with
    | some v => statusLabelOf v
    | none => statusHeuristicPart s user_context

/-! ## `src/mcp/` — tool registry and dispatch -/

/-- The tool names declared by `VaultaMCP._define_tools` in
`src/mcp/vaulta.py` (declaration order); `VaultaMCP.call_tool`'s
`method_map` has exactly the same keys. -/
def vaultaToolNames : List String :=
  ["vaulta_set_access_token", "vaulta_logout", "vaulta_auth_status",
   "vaulta_login", "vaulta_verify_otp", "vaulta_register",
   "vaulta_get_current_user", "vaulta_create_account",
   "vaulta_get_all_accounts", "vaulta_update_account",
   "vaulta_delete_account", "vaulta_create_payment", "vaulta_get_payment",
   "vaulta_get_quote", "vaulta_get_pairs", "vaulta_get_cron_rates",
   "vaulta_create_transaction", "vaulta_get_all_transactions",
   "vaulta_get_transaction", "vaulta_create_api_key", "vaulta_get_api_keys"]

/-- The tool names declared by `StatusMCP._define_tools` in
`src/mcp/status_mcp.py`. -/
def statusToolNames : List String := ["update_status"]

/-- The outcome of one HTTP round trip made by `VaultaClient._request`:
either a 2xx JSON body, or a `requests.RequestException` (network error or
`raise_for_status` on a non-2xx response) carrying its message, the
response status code when a response exists, and the provider-returned
JSON detail when parseable. -/
inductive HttpOutcome where
  | success (body : JsonV)
  | failure (message : String) (statusCode : Option Int) (details : List (String × JsonV))

/-- `VaultaClient._request` of `src/mcp/vaulta.py` (lines 45–93): a 2xx
response is returned as its JSON body; a `RequestException` is captured
into the error envelope with keys `message`, `status_code` and `details`
— never raised past the dispatch boundary. -/
def vaultaRequest (outcome : HttpOutcome) : JsonV :=
  match outcome with
  | .success body => body
  | .failure msg code details =>
    .obj [("error", .obj [("message", .str msg),
                          ("status_code", code.elim JsonV.null JsonV.num),
                          ("details", .obj details)])]

/-- `VaultaMCP.call_tool` of `src/mcp/vaulta.py`: an unknown name yields
the error envelope, a known name runs its `method_map` handler.  The
handlers reach the network through `VaultaClient._request` (or answer
locally for the token-management tools); their outcome enters as
`handlerResult`.  The `try`/`except` around the handler turns any raised
exception into an error envelope, so the embedding is a total function. -/
def VaultaMCP_call_tool (handlerResult : String → List (String × JsonV) → JsonV)
    (tool_name : String) (arguments : List (String × JsonV)) : JsonV :=
  if tool_name ∈ vaultaToolNames then handlerResult tool_name arguments
  else .obj [("error", .str ("Tool " ++ tool_name ++ " not found"))]

/-- `StatusMCP.call_tool` of `src/mcp/status_mcp.py`: always succeeds on a
truthy `status` argument, echoing it back (the global `current_status`
mutation has no reader in the core and is not modeled). -/
def StatusMCP_call_tool (tool_name : String) (arguments : List (String × JsonV)) : JsonV :=
  if tool_name != "update_status" then
    .obj [("error", .str ("Tool " ++ tool_name ++ " not found"))]
  else
    match alGet arguments "status" with
    | some v =>
      if v.truthy then .obj [("status", v), ("updated", .bool true)]
      else .obj [("error", .str "Missing status")]
    | none => .obj [("error", .str "Missing status")]

/-- `MCPServer.call_tool` of `src/mcp/server.py` (lines 28–36): scan the
registered servers (`vaulta` first, then `status`) for one declaring the
name; if none does, return the tool-not-found error envelope instead of
failing the caller. -/
def MCPServer_call_tool (handlerResult : String → List (String × JsonV) → JsonV)
    (tool_name : String) (arguments : List (String × JsonV)) : JsonV :=
  if tool_name ∈ vaultaToolNames then VaultaMCP_call_tool handlerResult tool_name arguments
  else if tool_name ∈ statusToolNames then StatusMCP_call_tool tool_name arguments
  else .obj [("error", .str ("Tool " ++ tool_name ++ " not found in any server"))]

/-! ## `src/utils/session_store.py` and `AIService._persist_session` -/

/-- One persisted session record, the dict written by
`AIService._persist_session`: keys `history`, `user_context`,
`vaulta_token` (present even when `None`) and `authenticated`.  The store
serializes this record to JSON wholesale on every `set`. -/
structure StoredSession where
  history : List Interaction
  user_context : UserContext
  vaulta_token : Option String
  authenticated : Bool

/-- The joint mutable state of `AIService`: the in-memory session map
`self.sessions` and the durable `SessionStore` mapping (`self.store`,
whose `set`/`get`/`delete` are the association-list operations — the
store's lock serializes each operation, so one turn sees them atomically). -/
structure AIState where
  sessions : List (String × MemSession)
  store : List (String × StoredSession)

/-- `AIService._persist_session` (lines 433–442 of `src/services/ai.py`):
when the session id is live in memory, overwrite its store record
wholesale with the serializable session fields; otherwise do nothing. -/
def persistSession (sessions : List (String × MemSession))
    (store : List (String × StoredSession)) (session_id : String) :
    List (String × StoredSession) :=
  match alGet sessions session_id with
  | none => store
  | some s => alSet store session_id
      { history := s.history, user_context := s.user_context,
        vaulta_token := s.vaulta_token, authenticated := s.authenticated }

/-! ## `AIService` system instructions and session lifecycle -/

/-- The base system instruction of `AIService._get_base_system_instruction`
(lines 37–147 of `src/services/ai.py`).  The prompt literal is hundreds of
lines of persona text; it is abbreviated here to its opening line, which no
claim reads — every claim depends only on which instruction variant is
chosen, never on the prose. -/
def base_system_instruction : String :=
  "You are Presto Connect AI, a friendly AI assistant built by Presto Solutions Ghana for financial services."

/-- The authentication/payment-flow instruction block appended inside
`AIService._build_system_instruction` before the user-context section
(lines 272–414 of `src/services/ai.py`), likewise abbreviated to its
opening line. -/
def authFlowInstructionBlock : String :=
  "AUTHENTICATION FIRST - CRITICAL RULE"

/-- The per-user suffix of `_build_system_instruction` for an
authenticated context (lines 416–426): email line always, name, phone and
accounts lines when truthy, then the authenticated closing line. -/
def loggedInSuffix (c : UserContext) : String :=
  "\n✅ USER IS LOGGED IN (Vaulta):\n" ++
  ("- Email: " ++ c.email ++ "\n") ++
  (if c.name != "" then "- Name: " ++ c.name ++ "\n" else "") ++
  (if c.phone != "" then "- Phone: " ++ c.phone ++ "\n" else "") ++
  (if !c.accounts.isEmpty then
    "- Vaulta accounts: " ++ toString c.accounts.length ++ "\n" else "") ++
  "\nThey\x27re authenticated! Offer Vaulta services."

/-- The suffix of `_build_system_instruction` for an unauthenticated
context (line 429). -/
def notLoggedInSuffix : String :=
  "\n⚠️ USER NOT LOGGED IN: Ask if they\x27re a new user or existing user to guide them through registration or login."

/-- `AIService._build_system_instruction` (lines 268–431): base
instruction, the authentication-first block, then the logged-in section
(when the context has a truthy email) or the not-logged-in warning. -/
def build_system_instruction (user_context : Option UserContext) : String :=
  base_system_instruction ++ "\n\n" ++ authFlowInstructionBlock ++
  (match user_context with
   | some c => if c.email != "" then loggedInSuffix c else notLoggedInSuffix
   | none => notLoggedInSuffix)

/-- The fresh in-memory session built by `get_or_create_session` on first
sight of a session id (lines 228–248 of `src/services/ai.py`): inference
channel seeded from the current context, empty history, context as passed,
no token — nothing is read back from the store. -/
def freshSession (user_context : Option UserContext) : MemSession :=
  { chatInstruction := build_system_instruction user_context,
    history := [],
    user_context := user_context.getD emptyUserContext,
    authenticated := ucEmailTruthy user_context,
    vaulta_token := none }

/-- `AIService.get_or_create_session` (lines 222–266): on first sight,
install `freshSession` and persist immediately; on reuse, when the derived
authentication boolean changed, rebuild the inference channel with the
updated instruction, replace the context and flag, and persist; the
history log is never discarded on rebuild. -/
def get_or_create_session (st : AIState) (session_id : String)
    (user_context : Option UserContext) : AIState × MemSession :=
  match alGet st.sessions session_id with
  | none =>
    let fresh := freshSession user_context
    let sessions' := alSet st.sessions session_id fresh
    ({ sessions := sessions', store := persistSession sessions' st.store session_id }, fresh)
  | some s =>
    if s.authenticated != ucEmailTruthy user_context then
      let s' : MemSession :=
        { s with chatInstruction := build_system_instruction user_context,
                 user_context := user_context.getD emptyUserContext,
                 authenticated := ucEmailTruthy user_context }
      let sessions' := alSet st.sessions session_id s'
      ({ sessions := sessions', store := persistSession sessions' st.store session_id }, s')
    else (st, s)

/-! ## `AIService.chat` — the inference/tool loop -/

/-- One part of a model response: a tool-call request
(`part.function_call` with name and args) or plain text. -/
inductive ModelPart where
  | funcCall (name : String) (args : List (String × JsonV))
  | text (s : String)

/-- One model response (`response.candidates[0].content`): its ordered
parts. -/
structure ModelResponse where
  parts : List ModelPart

/-- `response.text`: the concatenated text parts; raises (here: errs) when
the response has no text part. -/
def responseTextE (r : ModelResponse) : Except String String :=
  let ts := r.parts.filterMap (fun p => match p with
    | .text s => some s
    | .funcCall _ _ => none)
  if ts.isEmpty then .error "response has no text part" else .ok (String.join ts)

/-- The inner `for part in response...parts` loop of `AIService.chat`
(lines 490–516): dispatch each tool-call request in model order, record a
`ToolCall` for each, and send each result back into the inference channel
(consuming the next response of the stream); text parts are skipped.
Returns the `has_function_call` flag, the response left in the channel,
the next stream index and the accumulated records; a raised send error
propagates. -/
def processParts (stream : Nat → Except String ModelResponse)
    (execTool : String → List (String × JsonV) → JsonV) :
    List ModelPart → Bool → ModelResponse → Nat → List ToolCall →
    Except String (Bool × ModelResponse × Nat × List ToolCall)
  | [], hasFC, response, idx, acc => .ok (hasFC, response, idx, acc)
  | .text _ :: rest, hasFC, response, idx, acc =>
    processParts stream execTool rest hasFC response idx acc
  | .funcCall name args :: rest, _, _, idx, acc =>
    let result := execTool name args
    let acc' := acc ++ [{ function := name, arguments := args, result := result }]
    match stream idx with
    | .error e => .error e
    | .ok r' => processParts stream execTool rest true r' (idx + 1) acc'

/-- The `while iteration < max_iterations` loop of `AIService.chat`
(lines 479–526), `fuel` being the remaining iterations out of the fixed
ceiling of 10.  Returns the final text (`none` when the ceiling was
exhausted without one), the recorded tool calls, and the number of
iterations consumed. -/
def chatLoop (stream : Nat → Except String ModelResponse)
    (execTool : String → List (String × JsonV) → JsonV) :
    Nat → ModelResponse → Nat → List ToolCall →
    Except String (Option String × List ToolCall × Nat)
  | 0, _, _, acc => .ok (none, acc, 0)
  | fuel + 1, response, idx, acc =>
    if response.parts.isEmpty then
      match responseTextE response with
      | .error e => .error e
      | .ok t => .ok (some t, acc, 1)
    else
      match processParts stream execTool response.parts false response idx acc with
      | .error e => .error e
      | .ok (hasFC, r', idx', acc') =>
        if hasFC then
          match chatLoop stream execTool fuel r' idx' acc' with
          | .error e => .error e
          | .ok (t, a, n) => .ok (t, a, n + 1)
        else
          match responseTextE r' with
          | .error e => .error e
          | .ok t => .ok (some t, acc', 1)

/-- The generic apology returned by the outer `except` of `AIService.chat`
(line 567). -/
def aiApologyMessage : String :=
  "Oops! Something went wrong on my end. Could you try that again?"

/-- The fallback assistant message substituted when the loop ends with no
final text (line 529). -/
def fallbackMessage : String := "I\x27m here and ready to help! 😊"

/-- The canonical OTP prompt of the override at line 541. -/
def standardOtpPrompt : String :=
  "I\x27ve sent an OTP code to your email. Please enter the 6-digit code to continue."

/-- Python `json_value == 'some string'`: true exactly when the value is
that string. -/
def jsonEqStr (o : Option JsonV) (s : String) : Bool :=
  match o with
  | some (.str t) => t == s
  | _ => false

/-- The OTP prompt enforcement of `AIService.chat` (lines 531–541): when
this turn dispatched `vaulta_login`, some `update_status` call of the turn
carries `AWAITING_OTP`, and the user context is unauthenticated, replace a
final response that is (stripped) a bare six-digit string, or that
mentions neither "otp" nor "digit" (case-insensitively), with the
standardized OTP prompt. -/
def otpGuard (tool_results : List ToolCall) (user_context : Option UserContext)
    (final_response : String) : String :=
  if tool_results.isEmpty then final_response
  else
    let called_login := tool_results.any (fun t => t.function == "vaulta_login")
    let awaiting_status := tool_results.any (fun t =>
      t.function == "update_status" && jsonEqStr (alGet t.arguments "status") "AWAITING_OTP")
    let is_authenticated := ucEmailTruthy user_context
    if called_login && awaiting_status && !is_authenticated then
      if sixDigitsL (stripL final_response.data) ||
         (!containsSub (lowerStr final_response) "otp" &&
          !containsSub (lowerStr final_response) "digit") then
        standardOtpPrompt
      else final_response
    else final_response

/-- The response dict of `AIService.chat` (only a `message` key; the route
adds the rest). -/
structure ChatResult where
  message : String

/-- `AIService.chat` (lines 444–568 of `src/services/ai.py`): resolve or
create the session, refresh its `authenticated` flag from the supplied
context, send the user message, run the bounded inference/tool loop,
substitute the fallback on ceiling exhaustion, apply the OTP guard, append
the completed interaction to the history and persist.  Any exception
raised inside (a failed channel send, or a `response.text` on a text-free
response) is caught at the method boundary and converted to the generic
apology; the state mutations made before the failure remain, but the
failed turn appends nothing to history and persists nothing further. -/
def AIService_chat (stream : Nat → Except String ModelResponse)
    (execTool : String → List (String × JsonV) → JsonV)
    (st : AIState) (session_id message : String) (user_context : Option UserContext) :
    ChatResult × AIState :=
  let created := get_or_create_session st session_id user_context
  let s1 : MemSession := { created.2 with authenticated := ucEmailTruthy user_context }
  let st2 : AIState := { created.1 with sessions := alSet created.1.sessions session_id s1 }
  match stream 0 with
  | .error _ => ({ message := aiApologyMessage }, st2)
  | .ok r0 =>
    match chatLoop stream execTool 10 r0 1 [] with
    | .error _ => ({ message := aiApologyMessage }, st2)
    | .ok (finalOpt, tool_results, _) =>
      let final := otpGuard tool_results user_context (finalOpt.getD fallbackMessage)
      let s2 : MemSession :=
        { s1 with history := s1.history ++
            [{ user := message, assistant := final, tool_calls := tool_results }] }
      let sessions3 := alSet st2.sessions session_id s2
      ({ message := final },
       { sessions := sessions3, store := persistSession sessions3 st2.store session_id })

/-- `AIService.clear_session` (lines 576–581): drop the session from the
in-memory map only; report whether it was present.  The durable store is
not touched. -/
def AIService_clear_session (sessions : List (String × MemSession)) (session_id : String) :
    Bool × List (String × MemSession) :=
  match alGet sessions session_id with
  | some _ => (true, alDel sessions session_id)
  | none => (false, sessions)

/-! ## `src/routes/chat_routes.py` — the `/chat` turn route -/

/-- The body of a `/chat` request: `message` (required), optional
`session_id`, optional bearer `token`. -/
structure ChatRequest where
  message : String
  session_id : Option String
  token : Option String

/-- The JSON body of a turn response.  `session_id`/`token` are optional
fields: `none` means the key is absent from the JSON object, `some v`
means it is present with value `v` (for `token`, possibly JSON null). -/
structure TurnResponse where
  message : String
  status : String
  session_id : Option String
  token : Option JsonV

/-- A route result: HTTP status code and JSON body. -/
structure RouteResult where
  statusCode : Nat
  body : TurnResponse

/-- The external collaborators of one `/chat` turn: the generated session
id (`str(uuid.uuid4())`), the identity lookup
(`vaulta_mcp.client.get_current_user()` under a bearer token), the
per-session inference channel (successive model responses), and the tool
executor (`AIService._execute_tool_call`, whose `try`/`except` makes it
total). -/
structure RouteEnv where
  freshId : String
  fetchUser : String → JsonV
  stream : Nat → Except String ModelResponse
  execTool : String → List (String × JsonV) → JsonV

/-- `user_info.get(k)` as a string, `""` for a missing or null field (only
truthiness and echoing are ever applied to these). -/
def jsonFieldStr (j : JsonV) (k : String) : String :=
  match JsonV.get j k with
  | some (.str s) => s
  | _ => ""

/-- `user_data.get('accounts', [])`. -/
def jsonFieldArr (j : JsonV) (k : String) : List JsonV :=
  match JsonV.get j k with
  | some (.arr l) => l
  | _ => []

/-- The user context the route builds from a successful
`get_current_user` response (lines 77–87 of `src/routes/chat_routes.py`). -/
def userContextOfFetch (user_data : JsonV) : UserContext :=
  let user_info := (JsonV.get user_data "user").getD (.obj [])
  { email := jsonFieldStr user_info "email",
    name := stripStr (jsonFieldStr user_info "first_name" ++ " " ++
                      jsonFieldStr user_info "last_name"),
    phone := jsonFieldStr user_info "phone",
    accounts := jsonFieldArr user_data "accounts",
    vaulta_user_id := jsonFieldStr user_info "id" }

/-- The user context the route extracts from a `vaulta_verify_otp` result
(lines 144–153; `accounts` deliberately left empty). -/
def userContextOfOtp (user_data : JsonV) : UserContext :=
  { email := jsonFieldStr user_data "email",
    name := stripStr (jsonFieldStr user_data "first_name" ++ " " ++
                      jsonFieldStr user_data "last_name"),
    phone := jsonFieldStr user_data "phone",
    accounts := [],
    vaulta_user_id := jsonFieldStr user_data "id" }

/-- The scan-stopping event found by the route's walk over the last
interaction (lines 128–172): a `vaulta_verify_otp` dict result carrying a
new access token (with the optional user payload), a `vaulta_verify_otp`
dict result carrying no truthy token (the `break` at line 160 sits inside
the dict-result check but outside `if new_token:`, so this also stops the
scan — with no state change), or a `vaulta_logout`. -/
inductive TokenEvent where
  | newToken (token : String) (userData : Option JsonV)
  | verifyWithoutToken
  | logout

/-- The route's scan of the last interaction's tool calls, in dispatch
order: the first `vaulta_verify_otp` whose result is a dict stops the
scan — with the new token when the result carries a truthy `access_token`
(or `jwt_token`), with no change otherwise; a `vaulta_verify_otp` whose
result is not a dict is passed over; a `vaulta_logout` stops the scan
unconditionally. -/
def findTokenEvent (tool_calls : List ToolCall) : Option TokenEvent :=
  tool_calls.findSome? fun tc =>
    if tc.function == "vaulta_verify_otp" then
      match tc.result with
      | .obj _ =>
        match jsonTruthyStr (JsonV.get tc.result "access_token") with
        | some t => some (.newToken t (JsonV.get tc.result "user"))
        | none =>
          match jsonTruthyStr (JsonV.get tc.result "jwt_token") with
          | some t => some (.newToken t (JsonV.get tc.result "user"))
          | none => some TokenEvent.verifyWithoutToken
      | _ => none
    else if tc.function == "vaulta_logout" then some TokenEvent.logout
    else none

/-- `vaulta_token if ... else ...` resolution of lines 43–59: the request
token when truthy, else the in-memory session's `vaulta_token`, else the
persisted record's `vaulta_token`. -/
def resolveVaultaToken (st : AIState) (session_id : String) (reqToken : Option String) :
    Option String :=
  match strOptVal reqToken with
  | some t => some t
  | none =>
    match (alGet st.sessions session_id).bind (fun s => strOptVal s.vaulta_token) with
    | some t => some t
    | none => (alGet st.store session_id).bind (fun r => strOptVal r.vaulta_token)

/-- Lines 68–115 of the route: with a token, fetch the user and on success
build the context and refresh the live session (persisting); on an
error response clear the token and de-authenticate the live session
(persisting); with no token, fall back to a persisted user context that
has a truthy email.  Returns (user context, current token, state). -/
def resolveUserContext (env : RouteEnv) (st : AIState) (session_id : String)
    (vaulta_token : Option String) : Option UserContext × Option String × AIState :=
  match vaulta_token with
  | some t =>
    let ud := env.fetchUser t
    if !jsonOptTruthy (JsonV.get ud "error") then
      let uc := userContextOfFetch ud
      let st' :=
        match alGet st.sessions session_id with
        | some s =>
          let s' : MemSession :=
            { s with vaulta_token := some t, user_context := uc, authenticated := true }
          let sessions' := alSet st.sessions session_id s'
          { sessions := sessions', store := persistSession sessions' st.store session_id }
        | none => st
      (some uc, some t, st')
    else
      let st' :=
        match alGet st.sessions session_id with
        | some s =>
          let s' : MemSession :=
            { s with vaulta_token := none, user_context := emptyUserContext,
                     authenticated := false }
          let sessions' := alSet st.sessions session_id s'
          { sessions := sessions', store := persistSession sessions' st.store session_id }
        | none => st
      (none, none, st')
  | none =>
    match alGet st.store session_id with
    | some rec =>
      if rec.user_context.email != "" then (some rec.user_context, none, st)
      else (none, none, st)
    | none => (none, none, st)

/-- The route's post-turn token-change scan (lines 124–172): apply the
`TokenEvent` of the turn's last interaction to the live session and the
current token, persisting on a change.  Returns (current token,
token_changed, user context, state). -/
def applyTokenScan (st : AIState) (session_id : String) (current : Option String)
    (uc : Option UserContext) : Option String × Bool × Option UserContext × AIState :=
  match alGet st.sessions session_id with
  | none => (current, false, uc, st)
  | some s =>
    match s.history.getLast? with
    | none => (current, false, uc, st)
    | some last =>
      match findTokenEvent last.tool_calls with
      | none => (current, false, uc, st)
      | some (.newToken t userData) =>
        let ucNew :=
          match userData with
          | some ud => if ud.truthy then some (userContextOfOtp ud) else none
          | none => none
        let s' : MemSession :=
          match ucNew with
          | some c => { s with authenticated := true, vaulta_token := some t, user_context := c }
          | none => { s with authenticated := true, vaulta_token := some t }
        let sessions' := alSet st.sessions session_id s'
        (some t, true, ucNew.elim uc some,
         { sessions := sessions', store := persistSession sessions' st.store session_id })
      | some TokenEvent.verifyWithoutToken => (current, false, uc, st)
      | some TokenEvent.logout =>
        let s' : MemSession := { s with authenticated := false, vaulta_token := none }
        let sessions' := alSet st.sessions session_id s'
        (none, true, none,
         { sessions := sessions', store := persistSession sessions' st.store session_id })

/-- `None` serialized as JSON null, a string as a JSON string (the `token`
field of a first-message response). -/
def jsonOfOptStr (o : Option String) : JsonV :=
  match o with
  | some s => .str s
  | none => .null

/-- The response assembly of lines 174–185: `status` always set on the
body, `session_id` and `token` both added when the request carried no
session id, `token` alone added when it changed this turn. -/
def assembleChatResponse (message status : String) (is_first_message token_changed : Bool)
    (session_id : String) (current_token : Option String) : TurnResponse :=
  { message := message, status := status,
    session_id := if is_first_message then some session_id else none,
    token :=
      if is_first_message then some (jsonOfOptStr current_token)
      else if token_changed then some (jsonOfOptStr current_token) else none }

/-- The `/chat` route handler (lines 10–191 of
`src/routes/chat_routes.py`): reject an empty message with no state
change; otherwise resolve the session id and token, resolve the user
context, run `AIService.chat`, scan for a token change, compute the
status (passing the user context only when a current token exists), and
assemble the response.  (`vaulta_mcp.set_access_token` mutates only the
HTTP client the collaborators stand behind, so it has no separate
observable here; the route's own `except` is unreachable in the embedding
because every inner operation is total.) -/
def chatRoute (env : RouteEnv) (st : AIState) (req : ChatRequest) : RouteResult × AIState :=
  if req.message == "" then
    ({ statusCode := 400,
       body := { message := "Could you please send me a message? 😊", status := "error",
                 session_id := none, token := none } }, st)
  else
    let is_first_message := !strOptTruthy req.session_id
    let session_id := if strOptTruthy req.session_id then req.session_id.getD "" else env.freshId
    let vaulta_token := resolveVaultaToken st session_id req.token
    let resolved := resolveUserContext env st session_id vaulta_token
    let uc := resolved.1
    let current0 := resolved.2.1
    let st1 := resolved.2.2
    let turn := AIService_chat env.stream env.execTool st1 session_id req.message uc
    let scanned := applyTokenScan turn.2 session_id current0 uc
    let current := scanned.1
    let token_changed := scanned.2.1
    let uc2 := scanned.2.2.1
    let st3 := scanned.2.2.2
    let status := determine_status (alGet st3.sessions session_id)
      (if strOptTruthy current then uc2 else none)
    ({ statusCode := 200,
       body := assembleChatResponse turn.1.message status is_first_message token_changed
                 session_id current }, st3)

/-- The body of a session-deletion response. -/
inductive ClearBody where
  | cleared (message : String)
  | notFound (error code : String)

/-- The `DELETE /chat/session/<session_id>` route (lines 218–238):
`AIService.clear_session` on the in-memory map, 200 on success, 404 with
`session_not_found` otherwise.  `SessionStore.delete` exists in
`src/utils/session_store.py` but is never invoked here, so the durable
record survives. -/
def route_clear_session (st : AIState) (session_id : String) : (Nat × ClearBody) × AIState :=
  let cleared := AIService_clear_session st.sessions session_id
  if cleared.1 then
    ((200, ClearBody.cleared "Session cleared successfully"),
     { sessions := cleared.2, store := st.store })
  else
    ((404, ClearBody.notFound "Session not found" "session_not_found"),
     { sessions := cleared.2, store := st.store })

/-! ## Concrete instances used by witnesses and counterexamples -/

/-- A populated user context. -/
def demoUC : UserContext :=
  { email := "a@b.com", name := "Ada B", phone := "0200000000",
    accounts := [], vaulta_user_id := "u1" }

/-- A live in-memory session. -/
def demoSession : MemSession :=
  { chatInstruction := "instr", history := [], user_context := demoUC,
    authenticated := true, vaulta_token := some "tok" }

/-- A persisted record. -/
def demoStored : StoredSession :=
  { history := [], user_context := demoUC, vaulta_token := some "tok",
    authenticated := true }

/-- A stale user context left in the store by an earlier authenticated
session. -/
def staleUC : UserContext :=
  { email := "stale@example.com", name := "Stale User", phone := "",
    accounts := [], vaulta_user_id := "u9" }

/-- A persisted record with a stale user context and no token. -/
def staleRec : StoredSession :=
  { history := [], user_context := staleUC, vaulta_token := none,
    authenticated := true }

/-- One persisted interaction from before a process restart. -/
def staleInter : Interaction :=
  { user := "old question", assistant := "old answer", tool_calls := [] }

/-- A persisted record carrying history and a token, as left by a
pre-restart process. -/
def restartStored : StoredSession :=
  { history := [staleInter], user_context := demoUC,
    vaulta_token := some "tok0", authenticated := true }

/-- A collaborator environment whose model immediately answers with plain
text and whose tools are never reached. -/
def envText : RouteEnv :=
  { freshId := "fresh-1", fetchUser := fun _ => .obj [],
    stream := fun _ => .ok { parts := [ModelPart.text "Hi there!"] },
    execTool := fun _ _ => .null }

/-- A collaborator environment whose inference channel raises on the very
first send. -/
def envFailing : RouteEnv :=
  { freshId := "fresh-1", fetchUser := fun _ => .obj [],
    stream := fun _ => .error "boom",
    execTool := fun _ _ => .null }

/-- The tool record of a dispatched `vaulta_login`. -/
def loginToolCall : ToolCall :=
  { function := "vaulta_login",
    arguments := [("email", .str "a@b.com")],
    result := .obj [("access_token", .str "tok1"), ("message", .str "OTP sent")] }

/-- The tool record of an explicit `update_status(AWAITING_OTP)`. -/
def awaitingToolCall : ToolCall :=
  { function := "update_status",
    arguments := [("status", .str "AWAITING_OTP")],
    result := .obj [("status", .str "AWAITING_OTP"), ("updated", .bool true)] }

/-- Claim-side reading of C4: the text is exactly a 6-digit numeric
string. -/
def exactSixDigitString (s : String) : Bool := sixDigitsL s.data

/-- Claim-side reading of C4: the text mentions the concept of a one-time
code (the code's notion: it contains "otp" or "digit",
case-insensitively). -/
def mentionsOtpConcept (s : String) : Bool :=
  containsSub (lowerStr s) "otp" || containsSub (lowerStr s) "digit"

/-- Claim-side reading of C4: the most recent explicit status signal of
the turn — the newest `update_status` among the turn's tool records. -/
def lastStatusSignal (tool_results : List ToolCall) : Option ToolCall :=
  tool_results.reverse.find? (fun t => t.function == "update_status")

/-! ## Helper lemmas -/

theorem alGet_alSet {α : Type} (m : List (String × α)) (k : String) (v : α) :
    alGet (alSet m k v) k = some v := by
  induction m with
  | nil => simp [alSet, alGet, List.find?]
  | cons p rest ih =>
    obtain ⟨k', v'⟩ := p
    by_cases h : k' = k
    · simp [alSet, h, alGet, List.find?]
    · simpa [alSet, h, alGet, List.find?, h] using ih

theorem alSet_idem {α : Type} (m : List (String × α)) (k : String) (v : α) :
    alSet (alSet m k v) k v = alSet m k v := by
  induction m with
  | nil => simp [alSet]
  | cons p rest ih =>
    obtain ⟨k', v'⟩ := p
    by_cases h : k' = k
    · simp [alSet, h]
    · simp [alSet, h, ih]

theorem containsSubL_subset {hay needle : List Char} (h : containsSubL hay needle = true) :
    ∀ c ∈ needle, c ∈ hay := by
  induction hay with
  | nil =>
    simp [containsSubL, List.isEmpty_iff] at h
    simp [h]
  | cons a t ih =>
    simp only [containsSubL, Bool.or_eq_true] at h
    rcases h with hpre | hrec
    · have : needle <+: a :: t := by
        exact Iff.mp List.isPrefixOf_iff_prefix hpre
      exact fun c hc => this.subset hc
    · exact fun c hc => List.mem_cons_of_mem a (ih hrec c hc)

theorem toLower_eq_of_toNat_lt {c : Char} (h : c.toNat < 65) : c.toLower = c := by
  unfold Char.toLower
  rw [if_neg]
  omega

theorem isDigit_toNat_bounds {c : Char} (h : c.isDigit = true) :
    48 ≤ c.toNat ∧ c.toNat ≤ 57 := by
  simp [Char.isDigit] at h
  exact h

theorem isDigit_not_ws {c : Char} (h : c.isDigit = true) : c.isWhitespace = false := by
  by_contra hw
  rw [Bool.not_eq_false] at hw
  simp [Char.isWhitespace] at hw
  rcases hw with ((rfl | rfl) | rfl) | rfl <;> exact absurd h (by decide)

theorem stripL_of_all_digits {cs : List Char} (h : cs.all Char.isDigit = true) :
    stripL cs = cs := by
  have hrev : cs.reverse.all Char.isDigit = true := by simpa using h
  have step : ∀ (l : List Char), l.all Char.isDigit = true →
      l.dropWhile Char.isWhitespace = l := by
    intro l hl
    cases l with
    | nil => rfl
    | cons c t =>
      have hc : c.isDigit = true := by
        simp [List.all_cons] at hl
        exact hl.1
      simp [List.dropWhile_cons, isDigit_not_ws hc]
  unfold stripL
  rw [step cs h, step cs.reverse hrev, List.reverse_reverse]

theorem mem_ws_or_strip {cs : List Char} {c : Char} (hc : c ∈ cs) :
    c.isWhitespace = true ∨ c ∈ stripL cs := by
  have h1 : c ∈ cs.takeWhile Char.isWhitespace ∨ c ∈ cs.dropWhile Char.isWhitespace := by
    rw [← List.takeWhile_append_dropWhile (p := Char.isWhitespace) (l := cs)] at hc
    exact List.mem_append.mp hc
  rcases h1 with h1 | h1
  · exact Or.inl (List.mem_takeWhile_imp h1)
  · have h2 : c ∈ (cs.dropWhile Char.isWhitespace).reverse := List.mem_reverse.mpr h1
    have h3 : c ∈ (cs.dropWhile Char.isWhitespace).reverse.takeWhile Char.isWhitespace ∨
        c ∈ (cs.dropWhile Char.isWhitespace).reverse.dropWhile Char.isWhitespace := by
      rw [← List.takeWhile_append_dropWhile (p := Char.isWhitespace)
        (l := (cs.dropWhile Char.isWhitespace).reverse)] at h2
      exact List.mem_append.mp h2
    rcases h3 with h3 | h3
    · exact Or.inl (List.mem_takeWhile_imp h3)
    · exact Or.inr (List.mem_reverse.mpr h3)

theorem stripSix_chars {cs : List Char} (h : sixDigitsL (stripL cs) = true) :
    ∀ c ∈ cs, c.isWhitespace = true ∨ c.isDigit = true := by
  intro c hc
  rcases mem_ws_or_strip hc with hw | hs
  · exact Or.inl hw
  · right
    simp [sixDigitsL, List.all_eq_true] at h
    exact h.2 c hs

theorem no_t_in_lower {cs : List Char}
    (hchars : ∀ c ∈ cs, c.isWhitespace = true ∨ c.isDigit = true) :
    ('t' : Char) ∉ cs.map Char.toLower := by
  intro hmem
  obtain ⟨c, hc, hlow⟩ := List.mem_map.mp hmem
  rcases hchars c hc with hw | hd
  · simp [Char.isWhitespace] at hw
    rcases hw with ((rfl | rfl) | rfl) | rfl <;> exact absurd hlow (by decide)
  · have hb := isDigit_toNat_bounds hd
    have hfix : c.toLower = c := toLower_eq_of_toNat_lt (by omega)
    rw [hfix] at hlow
    subst hlow
    exact absurd hb (by decide)

theorem stripSix_not_mentions {s : String} (h : sixDigitsL (stripL s.data) = true) :
    mentionsOtpConcept s = false := by
  have hchars := stripSix_chars h
  have hnot := no_t_in_lower hchars
  unfold mentionsOtpConcept
  rw [Bool.or_eq_false_iff]
  constructor
  · by_contra hcon
    rw [Bool.not_eq_false] at hcon
    exact hnot (containsSubL_subset hcon 't' (by decide))
  · by_contra hcon
    rw [Bool.not_eq_false] at hcon
    exact hnot (containsSubL_subset hcon 't' (by decide))

/-! ## Claim theorems -/

/-- C8: persisting a session and loading its id back yields exactly the
persisted history, user context and auth token (the `vaulta_token` field
is part of the record even when `none`); and persisting the same snapshot
twice leaves the stored record identical, hence its wholesale JSON
serialization byte-for-byte stable. -/
theorem persist_then_load_round_trip :
    (∀ (st : AIState) (session_id : String) (s : MemSession),
      alGet st.sessions session_id = some s →
      alGet (persistSession st.sessions st.store session_id) session_id =
        some { history := s.history, user_context := s.user_context,
               vaulta_token := s.vaulta_token, authenticated := s.authenticated }) ∧
    (∀ (store : List (String × StoredSession)) (session_id : String) (rec : StoredSession),
      alSet (alSet store session_id rec) session_id rec = alSet store session_id rec) := by
  constructor
  · intro st session_id s h
    unfold persistSession
    rw [h]
    exact alGet_alSet st.store session_id _
  · intro store session_id rec
    exact alSet_idem store session_id rec

/-- Witness for C8 at a concrete session map and store. -/
theorem persist_then_load_round_trip_witness :
    alGet (persistSession [("s1", demoSession)] [] "s1") "s1" =
      some { history := demoSession.history, user_context := demoSession.user_context,
             vaulta_token := demoSession.vaulta_token,
             authenticated := demoSession.authenticated } ∧
    alSet (alSet [] "s1" demoStored) "s1" demoStored = alSet [] "s1" demoStored :=
  ⟨persist_then_load_round_trip.1 ⟨[("s1", demoSession)], []⟩ "s1" demoSession rfl,
   persist_then_load_round_trip.2 [] "s1" demoStored⟩

/-- C7: a tool name declared by no registered group dispatches to the
data-level error envelope (an `error`-keyed object naming the tool), and a
failing backing operation is captured by `VaultaClient._request` into the
structured error envelope — in the embedding both are values of the total
dispatch functions, never exceptions. -/
theorem tool_not_found_envelope :
    (∀ (handlerResult : String → List (String × JsonV) → JsonV)
       (tool_name : String) (arguments : List (String × JsonV)),
      tool_name ∉ vaultaToolNames → tool_name ∉ statusToolNames →
      MCPServer_call_tool handlerResult tool_name arguments =
        JsonV.obj [("error", .str ("Tool " ++ tool_name ++ " not found in any server"))]) ∧
    (∀ (message : String) (statusCode : Option Int) (details : List (String × JsonV)),
      vaultaRequest (.failure message statusCode details) =
        JsonV.obj [("error", .obj [("message", .str message),
                                   ("status_code", statusCode.elim JsonV.null JsonV.num),
                                   ("details", .obj details)])]) := by
  constructor
  · intro handlerResult tool_name arguments h1 h2
    unfold MCPServer_call_tool
    rw [if_neg h1, if_neg h2]
  · intro message statusCode details
    rfl

/-- Witness for C7 at a concrete undeclared tool name. -/
theorem tool_not_found_envelope_witness :
    MCPServer_call_tool (fun _ _ => JsonV.null) "frobnicate" [] =
      JsonV.obj [("error", .str ("Tool " ++ "frobnicate" ++ " not found in any server"))] :=
  tool_not_found_envelope.1 (fun _ _ => JsonV.null) "frobnicate" [] (by decide) (by decide)

/-- C10 counterexample: deleting a session that is live in memory and has
a durable record returns success and removes it from memory, but its
durable store record survives — the deletion does not remove the session
from both live memory and the store. -/
theorem clear_session_store_survives :
    (route_clear_session ⟨[("s1", demoSession)], [("s1", demoStored)]⟩ "s1").1.1 = 200 ∧
    alGet (route_clear_session ⟨[("s1", demoSession)], [("s1", demoStored)]⟩ "s1").2.sessions "s1"
      = none ∧
    alGet (route_clear_session ⟨[("s1", demoSession)], [("s1", demoStored)]⟩ "s1").2.store "s1"
      = some demoStored :=
  ⟨rfl, rfl, rfl⟩

/-- C10 amended: the deletion operation removes the session from live
memory only, leaving the durable store untouched; deleting a session id
not live in memory reports session-not-found and changes nothing. -/
theorem clear_session_amended : ∀ (st : AIState) (session_id : String),
    (∀ s, alGet st.sessions session_id = some s →
      route_clear_session st session_id =
        ((200, ClearBody.cleared "Session cleared successfully"),
         { sessions := alDel st.sessions session_id, store := st.store })) ∧
    (alGet st.sessions session_id = none →
      route_clear_session st session_id =
        ((404, ClearBody.notFound "Session not found" "session_not_found"),
         { sessions := st.sessions, store := st.store })) := by
  intro st session_id
  constructor
  · intro s h
    simp [route_clear_session, AIService_clear_session, h]
  · intro h
    simp [route_clear_session, AIService_clear_session, h]

/-- Witness for the amended C10 at a concrete state. -/
theorem clear_session_amended_witness :
    route_clear_session ⟨[("s2", demoSession)], []⟩ "s2" =
      ((200, ClearBody.cleared "Session cleared successfully"),
       { sessions := alDel [("s2", demoSession)] "s2", store := [] }) :=
  (clear_session_amended ⟨[("s2", demoSession)], []⟩ "s2").1 demoSession rfl

/-- C9 counterexample: a first-message turn in which no token exists and
none is produced still carries the `token` field (with JSON null) in its
response — the field is not present only when the token changed. -/
theorem token_field_on_first_message :
    (chatRoute envText ⟨[], []⟩ ⟨"hi", none, none⟩).1.body.token = some JsonV.null ∧
    resolveVaultaToken ⟨[], []⟩ "fresh-1" none = none ∧
    (chatRoute envText ⟨[], []⟩ ⟨"hi", none, none⟩).1.body.status = "NOT_AUTHENTICATED" :=
  ⟨rfl, rfl, rfl⟩

/-- C9 amended: `message` and `status` are always present; `sessionId` is
present exactly when the request carried no session id; the `token` field
is present exactly when the request carried no session id or the token
changed this turn. -/
theorem response_field_presence :
    ∀ (message status : String) (is_first token_changed : Bool)
      (session_id : String) (current : Option String),
      ((assembleChatResponse message status is_first token_changed session_id current).token.isSome
         = (is_first || token_changed)) ∧
      ((assembleChatResponse message status is_first token_changed session_id current).session_id.isSome
         = is_first) ∧
      (assembleChatResponse message status is_first token_changed session_id current).message
         = message ∧
      (assembleChatResponse message status is_first token_changed session_id current).status
         = status := by
  intro m s f c sid cur
  cases f <;> cases c <;> simp [assembleChatResponse]

/-- C5 counterexample: on first sight of a session id whose persisted
record carries one interaction of history and a token, the rebuilt session
has an empty history and no token, and the persist that follows overwrites
the stored record with the empty history — token, context and history are
not restored. -/
theorem rehydration_never_happens :
    (get_or_create_session ⟨[], [("s1", restartStored)]⟩ "s1" none).2.history = [] ∧
    (get_or_create_session ⟨[], [("s1", restartStored)]⟩ "s1" none).2.vaulta_token = none ∧
    (alGet ([("s1", restartStored)] : List (String × StoredSession)) "s1").map
      (fun r => r.history) = some [staleInter] ∧
    (alGet (get_or_create_session ⟨[], [("s1", restartStored)]⟩ "s1" none).1.store "s1").map
      (fun r => r.history) = some [] :=
  ⟨rfl, rfl, rfl, rfl⟩

/-- C5 amended: on first sight of a session id — persisted record or not —
the whole in-memory session is built fresh (inference channel seeded from
the current context, empty history, context from the current request only,
no token), installed, and immediately persisted, overwriting any stored
record; nothing is read back from the store by the session manager. -/
theorem first_sight_builds_fresh :
    ∀ (st : AIState) (session_id : String) (user_context : Option UserContext),
      alGet st.sessions session_id = none →
      get_or_create_session st session_id user_context =
        ({ sessions := alSet st.sessions session_id (freshSession user_context),
           store := alSet st.store session_id
             { history := [], user_context := user_context.getD emptyUserContext,
               vaulta_token := none, authenticated := ucEmailTruthy user_context } },
         freshSession user_context) := by
  intro st session_id user_context h
  simp only [get_or_create_session, h]
  unfold persistSession
  rw [alGet_alSet]
  rfl

/-- Witness for the amended C5 at a concrete first-sight call. -/
theorem first_sight_builds_fresh_witness :
    get_or_create_session ⟨[], []⟩ "w5" (some demoUC) =
      ({ sessions := alSet [] "w5" (freshSession (some demoUC)),
         store := alSet [] "w5"
           { history := [], user_context := demoUC, vaulta_token := none,
             authenticated := true } },
       freshSession (some demoUC)) :=
  first_sight_builds_fresh ⟨[], []⟩ "w5" (some demoUC) rfl

/-- C6 amended: a failure raised inside the turn (here: the inference
channel failing on the first send) is caught at the orchestrator boundary
and converted to the generic apology; the failed turn appends nothing to
the history and persists nothing beyond what session resolution had
already persisted — but the returned status is then computed by the
status resolver as usual, not forced to an error indicator (an error
status is produced only when the failure escapes the orchestrator to the
route boundary). -/
theorem internal_failure_amended :
    ∀ (stream : Nat → Except String ModelResponse)
      (execTool : String → List (String × JsonV) → JsonV)
      (st : AIState) (session_id message : String) (user_context : Option UserContext)
      (e : String),
      stream 0 = .error e →
      AIService_chat stream execTool st session_id message user_context =
        ({ message := aiApologyMessage },
         { sessions := alSet (get_or_create_session st session_id user_context).1.sessions
             session_id
             { (get_or_create_session st session_id user_context).2 with
               authenticated := ucEmailTruthy user_context },
           store := (get_or_create_session st session_id user_context).1.store }) := by
  intro stream execTool st session_id message user_context e h
  unfold AIService_chat
  rw [h]

/-- Witness for the amended C6 at a concrete failing channel. -/
theorem internal_failure_amended_witness :
    AIService_chat (fun _ => .error "boom") (fun _ _ => JsonV.null) ⟨[], []⟩ "s6" "hi" none =
      ({ message := aiApologyMessage },
       { sessions := alSet (get_or_create_session ⟨[], []⟩ "s6" none).1.sessions "s6"
           { (get_or_create_session ⟨[], []⟩ "s6" none).2 with authenticated := false },
         store := (get_or_create_session ⟨[], []⟩ "s6" none).1.store }) :=
  internal_failure_amended (fun _ => .error "boom") (fun _ _ => JsonV.null)
    ⟨[], []⟩ "s6" "hi" none "boom" rfl

/-- C6 counterexample: with the inference channel failing, the turn
returns the generic apology but the route's status is the resolver's
normal answer (`NOT_AUTHENTICATED` here) with HTTP 200 — the status is
not forced to an error indicator. -/
theorem internal_failure_status_not_error :
    (chatRoute envFailing ⟨[], []⟩ ⟨"hi", none, none⟩).1.body.message = aiApologyMessage ∧
    (chatRoute envFailing ⟨[], []⟩ ⟨"hi", none, none⟩).1.body.status = "NOT_AUTHENTICATED" ∧
    (chatRoute envFailing ⟨[], []⟩ ⟨"hi", none, none⟩).1.statusCode = 200 ∧
    "NOT_AUTHENTICATED" ≠ "error" ∧ "NOT_AUTHENTICATED" ≠ "ERROR" :=
  ⟨rfl, rfl, rfl, by decide, by decide⟩

/-- C2 counterexample: a turn with no bearer token, no in-memory token and
no persisted token, but a stale persisted user context with a non-empty
email, leaves the session flagged `authenticated = true` and seeds its
inference channel with the logged-in instruction — the session IS treated
as authenticated despite having no auth token. -/
theorem stale_context_marks_authenticated :
    resolveVaultaToken ⟨[], [("s1", staleRec)]⟩ "s1" none = none ∧
    (alGet (chatRoute envText ⟨[], [("s1", staleRec)]⟩ ⟨"hello", some "s1", none⟩).2.sessions
        "s1").map (fun s => s.authenticated) = some true ∧
    (alGet (chatRoute envText ⟨[], [("s1", staleRec)]⟩ ⟨"hello", some "s1", none⟩).2.sessions
        "s1").map (fun s => containsSub s.chatInstruction "USER IS LOGGED IN") = some true :=
  ⟨rfl, rfl, by decide⟩

/-- C2 amended: (i) after every `AIService.chat` turn the session's
`authenticated` flag equals "the supplied user context has a non-empty
email", so `authenticated = true` right after a turn implies the supplied
context email was non-empty; (ii) with no resolvable token the route
loads a stale persisted user context (email truthy) as the turn's user
context while the current token stays `none` — so the session flag and
system instruction do follow the stale context; (iii) the status resolver
alone is shielded: with a `none` current token, the post-turn scan leaves
the current token `none` whenever the turn produced no new-token event,
and the route then calls the resolver with no user context. -/
theorem no_token_guarantees :
    (∀ (stream : Nat → Except String ModelResponse)
       (execTool : String → List (String × JsonV) → JsonV)
       (st : AIState) (session_id message : String) (user_context : Option UserContext)
       (s : MemSession),
      alGet (AIService_chat stream execTool st session_id message user_context).2.sessions
        session_id = some s →
      s.authenticated = ucEmailTruthy user_context) ∧
    (∀ (env : RouteEnv) (st : AIState) (session_id : String),
      resolveUserContext env st session_id none =
        ((alGet st.store session_id).bind
          (fun rec => if rec.user_context.email != "" then some rec.user_context else none),
         none, st)) ∧
    (∀ (st : AIState) (session_id : String) (user_context : Option UserContext),
      (∀ s, alGet st.sessions session_id = some s →
        ∀ last, s.history.getLast? = some last →
        ∀ t ud, findTokenEvent last.tool_calls ≠ some (TokenEvent.newToken t ud)) →
      (applyTokenScan st session_id none user_context).1 = none) := by
  refine ⟨?_, ?_, ?_⟩
  · intro stream execTool st session_id message user_context s h
    unfold AIService_chat at h
    rcases hs : stream 0 with e | r0
    · rw [hs] at h
      simp only [alGet_alSet] at h
      obtain rfl := (Option.some.injEq _ _).mp h.symm
      rfl
    · rw [hs] at h
      simp only at h
      rcases hl : chatLoop stream execTool 10 r0 1 [] with e | res
      · rw [hl] at h
        simp only [alGet_alSet] at h
        obtain rfl := (Option.some.injEq _ _).mp h.symm
        rfl
      · obtain ⟨t, a, n⟩ := res
        rw [hl] at h
        simp only [alGet_alSet] at h
        obtain rfl := (Option.some.injEq _ _).mp h.symm
        rfl
  · intro env st session_id
    unfold resolveUserContext
    cases h : alGet st.store session_id with
    | none => simp
    | some rec => by_cases he : rec.user_context.email = "" <;> simp [he]
  · intro st session_id user_context hno
    unfold applyTokenScan
    split
    · rfl
    · rename_i s hs
      split
      · rfl
      · rename_i last hl
        split
        · rfl
        · rename_i t userData heq
          exact absurd heq (hno s hs last hl t userData)
        · rfl
        · rfl

/-- Witness for the amended C2: a concrete text-only turn run with the
stale context as supplied user context. -/
theorem no_token_guarantees_witness :
    ({ chatInstruction := build_system_instruction (some staleUC),
       history := [{ user := "hi", assistant := "Hi there!", tool_calls := [] }],
       user_context := staleUC, authenticated := true,
       vaulta_token := none } : MemSession).authenticated
      = ucEmailTruthy (some staleUC) :=
  no_token_guarantees.1 (fun _ => .ok { parts := [ModelPart.text "Hi there!"] })
    (fun _ _ => JsonV.null) ⟨[], []⟩ "w2" "hi" (some staleUC) _ rfl

theorem chatLoop_iterations_le
    (stream : Nat → Except String ModelResponse)
    (execTool : String → List (String × JsonV) → JsonV) :
    ∀ (fuel : Nat) (r : ModelResponse) (idx : Nat) (acc : List ToolCall)
      (t : Option String) (a : List ToolCall) (n : Nat),
      chatLoop stream execTool fuel r idx acc = .ok (t, a, n) → n ≤ fuel := by
  intro fuel
  induction fuel with
  | zero =>
    intro r idx acc t a n h
    simp [chatLoop] at h
    omega
  | succ fuel ih =>
    intro r idx acc t a n h
    simp only [chatLoop] at h
    by_cases hp : r.parts.isEmpty = true
    · rw [if_pos hp] at h
      rcases ht : responseTextE r with e | s
      · rw [ht] at h
        exact absurd h (by simp)
      · rw [ht] at h
        simp at h
        omega
    · rw [if_neg hp] at h
      rcases hpp : processParts stream execTool r.parts false r idx acc with e | quad
      · rw [hpp] at h
        exact absurd h (by simp)
      · obtain ⟨hasFC, r', idx', acc'⟩ := quad
        rw [hpp] at h
        cases hasFC with
        | true =>
          have h2 : (match chatLoop stream execTool fuel r' idx' acc' with
              | Except.error e => Except.error e
              | Except.ok (t, a, n) => Except.ok (t, a, n + 1)) = Except.ok (t, a, n) := h
          rcases hcl : chatLoop stream execTool fuel r' idx' acc' with e | trip
          · rw [hcl] at h2
            exact absurd h2 (by simp)
          · obtain ⟨t', a', n'⟩ := trip
            rw [hcl] at h2
            simp at h2
            obtain ⟨-, -, hn⟩ := h2
            have := ih _ _ _ _ _ _ hcl
            omega
        | false =>
          have h2 : (match responseTextE r' with
              | Except.error e => Except.error e
              | Except.ok t2 => Except.ok (some t2, acc', 1)) = Except.ok (t, a, n) := h
          rcases ht : responseTextE r' with e | s
          · rw [ht] at h2
            exact absurd h2 (by simp)
          · rw [ht] at h2
            simp at h2
            omega

theorem chatLoop_allCalls
    (name : String) (args : List (String × JsonV))
    (execTool : String → List (String × JsonV) → JsonV) :
    ∀ (fuel : Nat) (idx : Nat) (acc : List ToolCall),
      chatLoop (fun _ => .ok { parts := [ModelPart.funcCall name args] }) execTool fuel
        { parts := [ModelPart.funcCall name args] } idx acc =
      .ok (none, acc ++ List.replicate fuel
        { function := name, arguments := args, result := execTool name args }, fuel) := by
  intro fuel
  induction fuel with
  | zero => intro idx acc; simp [chatLoop]
  | succ fuel ih =>
    intro idx acc
    have hstep : chatLoop (fun _ => .ok { parts := [ModelPart.funcCall name args] }) execTool
        (fuel + 1) { parts := [ModelPart.funcCall name args] } idx acc =
        (match chatLoop (fun _ => .ok { parts := [ModelPart.funcCall name args] }) execTool
            fuel { parts := [ModelPart.funcCall name args] } (idx + 1)
            (acc ++ [{ function := name, arguments := args, result := execTool name args }]) with
         | .error e => .error e
         | .ok (t, a, n) => .ok (t, a, n + 1)) := rfl
    rw [hstep, ih]
    simp [List.replicate_succ]

theorem otpGuard_uniform_name
    (name : String) (args : List (String × JsonV)) (result : JsonV)
    (user_context : Option UserContext) (final : String) (n : Nat) (hn : n ≠ 0) :
    otpGuard (List.replicate n { function := name, arguments := args, result := result })
      user_context final = final := by
  have hneutral : ∀ (p : ToolCall → Bool),
      p { function := name, arguments := args, result := result } = false →
      (List.replicate n { function := name, arguments := args, result := result }).any p
        = false := by
    intro p hp
    rw [Bool.eq_false_iff]
    intro hcon
    obtain ⟨x, hx, hpx⟩ := List.any_eq_true.mp hcon
    rw [List.eq_of_mem_replicate hx, hp] at hpx
    exact Bool.false_ne_true hpx
  unfold otpGuard
  rw [if_neg (by simp [List.isEmpty_iff, List.replicate_eq_nil_iff, hn])]
  by_cases hname : name = "vaulta_login"
  · rw [hneutral (fun t => t.function == "update_status" &&
      jsonEqStr (alGet t.arguments "status") "AWAITING_OTP") (by simp [hname])]
    simp
  · rw [hneutral (fun t => t.function == "vaulta_login") (by simp [hname])]
    simp

/-- C3: the inference/tool loop never exceeds the fixed ceiling of 10
rounds; and against a model that requests exactly one tool call in every
response, the turn terminates with the recorded interaction's `tool_calls`
of length exactly 10 and the non-empty fallback assistant message
substituted for the missing final text. -/
theorem iteration_ceiling :
    (∀ (stream : Nat → Except String ModelResponse)
       (execTool : String → List (String × JsonV) → JsonV)
       (fuel : Nat) (r : ModelResponse) (idx : Nat) (acc : List ToolCall)
       (t : Option String) (a : List ToolCall) (n : Nat),
      chatLoop stream execTool fuel r idx acc = .ok (t, a, n) → n ≤ fuel) ∧
    (∀ (name : String) (args : List (String × JsonV))
       (execTool : String → List (String × JsonV) → JsonV)
       (st : AIState) (session_id message : String) (user_context : Option UserContext),
      (AIService_chat (fun _ => .ok { parts := [ModelPart.funcCall name args] }) execTool st
        session_id message user_context).1.message = fallbackMessage ∧
      (∀ s, alGet (AIService_chat (fun _ => .ok { parts := [ModelPart.funcCall name args] })
          execTool st session_id message user_context).2.sessions session_id = some s →
        s.history.getLast?.map (fun i => i.tool_calls.length) = some 10)) ∧
    fallbackMessage ≠ "" := by
  refine ⟨chatLoop_iterations_le, ?_, by decide⟩
  intro name args execTool st session_id message user_context
  have hloop := chatLoop_allCalls name args execTool 10 1 []
  rw [List.nil_append] at hloop
  constructor
  · simp only [AIService_chat, hloop]
    rw [otpGuard_uniform_name name args (execTool name args) user_context _ 10 (by decide)]
    rfl
  · intro s hmem
    simp only [AIService_chat, hloop, alGet_alSet] at hmem
    obtain rfl := (Option.some.injEq _ _).mp hmem.symm
    simp [List.getLast?_concat, List.length_replicate,
      otpGuard_uniform_name name args (execTool name args) user_context _ 10 (by decide)]

/-- Witness for C3: a concrete text-only loop run consuming one iteration,
and a concrete always-tool-calling run ending in the fallback message with
ten recorded tool calls. -/
theorem iteration_ceiling_witness :
    (1 : Nat) ≤ 10 ∧
    (AIService_chat (fun _ => .ok { parts := [ModelPart.funcCall "vaulta_get_pairs" []] })
        (fun _ _ => JsonV.null) ⟨[], []⟩ "w3" "loop" none).1.message = fallbackMessage ∧
    (MemSession.mk (build_system_instruction none)
        [Interaction.mk "loop" fallbackMessage
          (List.replicate 10 (ToolCall.mk "vaulta_get_pairs" [] JsonV.null))]
        emptyUserContext false none).history.getLast?.map
         (fun i => i.tool_calls.length) = some 10 :=
  ⟨iteration_ceiling.1 (fun _ => .ok { parts := [ModelPart.text "done"] })
      (fun _ _ => JsonV.null) 10 { parts := [ModelPart.text "done"] } 1 []
      (some "done") [] 1 rfl,
   (iteration_ceiling.2.1 "vaulta_get_pairs" [] (fun _ _ => JsonV.null)
      ⟨[], []⟩ "w3" "loop" none).1,
   (iteration_ceiling.2.1 "vaulta_get_pairs" [] (fun _ _ => JsonV.null)
      ⟨[], []⟩ "w3" "loop" none).2 _ rfl⟩

/-- C4: when a turn dispatched `vaulta_login`, its most recent explicit
status signal is `AWAITING_OTP`, and the session is unauthenticated, the
orchestrator's guard replaces a final text that is exactly a six-digit
numeric string, or that fails to mention the one-time-code concept, with
the canonical OTP prompt — and leaves any other text unchanged. -/
theorem otp_guard_replacement :
    ∀ (tool_results : List ToolCall) (user_context : Option UserContext)
      (final : String) (tc : ToolCall),
      tool_results.any (fun t => t.function == "vaulta_login") = true →
      lastStatusSignal tool_results = some tc →
      jsonEqStr (alGet tc.arguments "status") "AWAITING_OTP" = true →
      ucEmailTruthy user_context = false →
      ((exactSixDigitString final || !mentionsOtpConcept final) = true →
        otpGuard tool_results user_context final = standardOtpPrompt) ∧
      (exactSixDigitString final = false → mentionsOtpConcept final = true →
        otpGuard tool_results user_context final = final) := by
  intro tool_results user_context final tc hlogin hlast harg hauth
  have hne : tool_results.isEmpty = false := by
    obtain ⟨x, hx, -⟩ := List.any_eq_true.mp hlogin
    cases tool_results with
    | nil => exact absurd hx (List.not_mem_nil x)
    | cons a l => rfl
  unfold lastStatusSignal at hlast
  have hmem : tc ∈ tool_results := by
    have := List.mem_of_find?_eq_some hlast
    exact List.mem_reverse.mp this
  have hfn : (tc.function == "update_status") = true := by
    have := List.find?_some hlast
    simpa using this
  have hawait : tool_results.any (fun t =>
      t.function == "update_status" &&
      jsonEqStr (alGet t.arguments "status") "AWAITING_OTP") = true :=
    List.any_eq_true.mpr ⟨tc, hmem, by rw [hfn, harg]; rfl⟩
  unfold otpGuard
  rw [hne]
  simp only [Bool.false_eq_true, if_false, hlogin, hawait, hauth, Bool.not_false,
    Bool.and_true, Bool.and_self, if_true]
  constructor
  · intro hcond
    rw [if_pos]
    rcases Bool.or_eq_true_iff.mp hcond with hsix | hnom
    · have hall : final.data.all Char.isDigit = true := by
        have := hsix
        unfold exactSixDigitString sixDigitsL at this
        exact (Bool.and_eq_true_iff.mp this).2
      have hstrip : stripL final.data = final.data := stripL_of_all_digits hall
      apply Bool.or_eq_true_iff.mpr
      left
      rw [hstrip]
      exact hsix
    · apply Bool.or_eq_true_iff.mpr
      right
      rw [Bool.not_eq_true'] at hnom
      unfold mentionsOtpConcept at hnom
      rcases Bool.or_eq_false_iff.mp hnom with ⟨h1, h2⟩
      rw [h1, h2]
      rfl
  · intro hsix hmen
    rw [if_neg]
    rw [Bool.or_eq_true_iff]
    rintro (hstr | hno)
    · have := stripSix_not_mentions hstr
      rw [hmen] at this
      simp at this
    · rcases Bool.and_eq_true_iff.mp hno with ⟨h1, h2⟩
      unfold mentionsOtpConcept at hmen
      rw [Bool.not_eq_true'] at h1 h2
      rw [h1, h2] at hmen
      exact Bool.false_ne_true hmen

/-- Witness for C4: a turn that dispatched `vaulta_login` and signaled
`AWAITING_OTP`, unauthenticated, with a bare six-digit final text — the
guard substitutes the canonical OTP prompt. -/
theorem otp_guard_replacement_witness :
    otpGuard [loginToolCall, awaitingToolCall] none "123456" = standardOtpPrompt :=
  (otp_guard_replacement [loginToolCall, awaitingToolCall] none "123456" awaitingToolCall
    rfl rfl rfl rfl).1 (by decide)
